import Mathlib

set_option linter.unusedVariables false

/-!
Verification of the epirust causal-inference engine specification against the
sources in src/epirust. The statistical module advanced_stats.py declares the
estimator family but every method body is a docstring followed by `pass`, and
the class body itself references the unbound name `Any`, so the module does not
even finish loading. The embeddings below model the module-level name binding,
the stub estimators, and the one fully implemented module, pipeline_config.py.
-/

/- ## Name binding in src/epirust/advanced_stats.py -/

/-- Names bound in the namespace of the module advanced_stats.py by its line 7
typing line, which reads: from typing bring in Optional, Tuple, List, Dict,
Union, Callable. The name Any is absent from this list. -/
def typingNames : List String :=
  ["Optional", "Tuple", "List", "Dict", "Union", "Callable"]

/-- The remaining module-level bindings of advanced_stats.py, lines 8 to 15:
numpy as np, pandas as pd, scipy stats, minimize, norm, poisson, nbinom,
multipletests, SARIMAX, PHReg. -/
def otherModuleNames : List String :=
  ["np", "pd", "stats", "minimize", "norm", "poisson", "nbinom",
   "multipletests", "SARIMAX", "PHReg"]

/-- Python builtin names referenced by the annotations of the class body. -/
def builtinNames : List String :=
  ["str", "bool", "int", "float", "staticmethod"]

/-- All names resolvable while the class body of CausalInference executes. -/
def boundNames : List String := typingNames ++ otherModuleNames ++ builtinNames

/-- Base names referenced, in evaluation order, by the parameter and return
annotations of CausalInference.g_computation, lines 20 to 41: pd.DataFrame,
str, str, List[str], bool, and the return Dict[str, float]. -/
def gComputationAnnotNames : List String :=
  ["pd", "str", "str", "List", "str", "bool", "Dict", "str", "float"]

/-- Annotation base names of CausalInference.instrumental_variables, lines 43
to 64: pd.DataFrame, str, str, str, Optional[List[str]], Dict[str, float]. -/
def instrumentalVariablesAnnotNames : List String :=
  ["pd", "str", "str", "str", "Optional", "List", "str", "Dict", "str", "float"]

/-- Annotation base names of CausalInference.target_trial_emulation, lines 66
to 80: pd.DataFrame, Dict[str, Any], Callable, str, int, int, Dict[str, Any].
The name Any appears here and only here inside the class body. -/
def targetTrialAnnotNames : List String :=
  ["pd", "Dict", "str", "Any", "Callable", "str", "int", "int",
   "Dict", "str", "Any"]

/-- Annotation base names of CausalInference.double_robust_estimation, lines 82
to 95: pd.DataFrame, str, str, List[str], str, Dict[str, float]. -/
def doubleRobustAnnotNames : List String :=
  ["pd", "str", "str", "List", "str", "str", "Dict", "str", "float"]

/-- Every annotation base name evaluated while the class body of
CausalInference executes, in source order of the four method definitions. -/
def classBodyAnnotNames : List String :=
  gComputationAnnotNames ++ instrumentalVariablesAnnotNames ++
    targetTrialAnnotNames ++ doubleRobustAnnotNames

/-- The first name of the list that the module namespace does not bind.
Python evaluates def annotations eagerly, so class-body execution raises
NameError at exactly this name. -/
def firstUnbound (names : List String) : Option String :=
  names.find? (fun n => !(boundNames.contains n))

/-- Outcome of executing the module top level of advanced_stats.py: the class
body of CausalInference runs def by def, and the first unbound annotation name
aborts execution with a NameError, so the module never finishes loading and no
name defined in it becomes callable. -/
def advancedStatsLoad : Except String Unit :=
  match firstUnbound classBodyAnnotNames with
  | some n => Except.error ("NameError: name " ++ n ++ " is not defined")
  | none => Except.ok ()

/- ## The estimator family as written: stub bodies -/

/-- Minimal tabular dataset: named columns over rational-valued rows, the shape
the estimator signatures take as pandas DataFrame input. -/
structure DataFrame where
  columns : List String
  rows : List (List ℚ)
deriving Repr, DecidableEq

/-- The CausalEstimate output entity of the spec data model: point estimate,
interval bounds, and named diagnostic statistics. The stubs below never
produce one. -/
structure CausalEstimate where
  point : ℚ
  lower : ℚ
  upper : ℚ
  diagnostics : List (String × ℚ)
deriving Repr, DecidableEq

/-- CausalInference.g_computation, lines 20 to 41 of advanced_stats.py: the
body is a docstring, a comment, and `pass`, so the call returns None for every
input (modelled as `none`). -/
def g_computation (data : DataFrame) (exposure : String) (outcome : String)
    (confounders : List String) (time_varying : Bool) : Option CausalEstimate :=
  none

/-- CausalInference.instrumental_variables, lines 43 to 64: the body is a
docstring, a comment, and `pass`, returning None for every input. -/
def instrumental_variables (data : DataFrame) (instrument : String)
    (exposure : String) (outcome : String) (covariates : Option (List String)) :
    Option CausalEstimate :=
  none

/-- CausalInference.target_trial_emulation, lines 66 to 80: the body is a
docstring and `pass`. The def itself is never reached in Python because its
own eligibility_criteria annotation raises NameError; were it reached, every
call would return None. -/
def target_trial_emulation (data : DataFrame)
    (eligibility_criteria : List (String × ℚ)) (treatment_strategy : ℚ → ℚ)
    (outcome_definition : String) (grace_period : Int) (followup_time : Int) :
    Option CausalEstimate :=
  none

/-- CausalInference.double_robust_estimation, lines 82 to 95: the body is a
docstring and `pass`, returning None for every input and every method string. -/
def double_robust_estimation (data : DataFrame) (treatment : String)
    (outcome : String) (confounders : List String) (method : String) :
    Option CausalEstimate :=
  none

/- ## The AIPTW estimand of the spec, for comparison with the stub -/

/-- One observation row for the AIPTW formula: binary exposure a, outcome y,
fitted outcome predictions mu1 and mu0 at the covariates of the row, and the
fitted propensity p at those covariates. -/
structure AiptwRow where
  a : ℚ
  y : ℚ
  mu1 : ℚ
  mu0 : ℚ
  p : ℚ
deriving Repr, DecidableEq

/-- Modelled from the spec: the AIPTW point estimate is the sample mean over
rows of mu1 - mu0 + (a / p) (y - mu1) - ((1 - a) / (1 - p)) (y - mu0). The
repository leaves double_robust_estimation as a pass stub, so this estimand is
computed nowhere in the source. -/
def aiptwMean (rows : List AiptwRow) : ℚ :=
  (rows.map (fun r =>
    r.mu1 - r.mu0 + r.a / r.p * (r.y - r.mu1)
      - (1 - r.a) / (1 - r.p) * (r.y - r.mu0))).sum / rows.length

/- ## Weighting Engine: weight truncation (spec-modelled) -/

/-- Modelled from the spec: the Weighting Engine is absent from the source (no
code under src implements weighting or truncation), so the truncation step is
modelled from the spec text. Nearest-rank index of the p-th percentile in a
sample of size n: the rank is the ceiling of p * n / 100. The spec leaves the
exact percentile definition as a configuration default; nearest rank is used
here. -/
def rankIndex (p n : ℕ) : ℕ := (p * n + 99) / 100

/-- Modelled from the spec: the value of the p-th percentile of the weights,
the entry at the nearest-rank position of the weights in sorted order (0 when
that position falls outside the list). -/
def percentileValue (p : ℕ) (w : List ℚ) : ℚ :=
  (w.insertionSort (· ≤ ·)).getD (rankIndex p w.length - 1) 0

/-- Modelled from the spec: truncation at the p-th percentile caps every
weight at the percentile value. -/
def truncateWeights (p : ℕ) (w : List ℚ) : List ℚ :=
  w.map (fun x => min x (percentileValue p w))

/-- Capping at a constant commutes with sorting: both sides are sorted lists
with the same multiset of entries. -/
lemma insertionSort_map_min (w : List ℚ) (c : ℚ) :
    (w.map (fun x => min x c)).insertionSort (· ≤ ·) =
      (w.insertionSort (· ≤ ·)).map (fun x => min x c) := by
  exact List.eq_of_perm_of_sorted (r := (· ≤ ·))
    ((List.perm_insertionSort _ _).trans
      (((List.perm_insertionSort (· ≤ ·) w).map _).symm))
    (List.sorted_insertionSort _ _)
    (List.Pairwise.map _ (fun a b hab => min_le_min hab (le_refl c))
      (List.sorted_insertionSort (· ≤ ·) w))

/-- Capping a list at a value that sits at position k of the list leaves the
entry at position k unchanged. -/
lemma getD_map_min_self (c : ℚ) :
    ∀ (s : List ℚ) (k : ℕ), c = s.getD k 0 →
      (s.map (fun x => min x c)).getD k 0 = s.getD k 0
  | [], k, _ => by simp
  | a :: s, 0, h => by
      simp only [List.map_cons, List.getD_cons_zero] at h ⊢
      rw [h, min_self]
  | a :: s, k + 1, h => by
      simp only [List.map_cons, List.getD_cons_succ] at h ⊢
      exact getD_map_min_self c s k h

/-- Truncating does not move the percentile used for truncation: entries at or
below the cap are unchanged and entries above it collapse onto the cap, which
still occupies the nearest-rank position of the sorted list. -/
lemma percentileValue_truncateWeights (p : ℕ) (w : List ℚ) :
    percentileValue p (truncateWeights p w) = percentileValue p w := by
  unfold truncateWeights percentileValue
  rw [List.length_map, insertionSort_map_min]
  exact getD_map_min_self _ _ _ rfl

/- ## Resampling and Variance Module: cluster bootstrap (spec-modelled) -/

/-- One analysis row for the cluster bootstrap: a cluster identifier and an
outcome value. -/
structure ClusterRow where
  cluster : ℕ
  value : ℚ
deriving Repr, DecidableEq

/-- Result record of the Resampling and Variance Module: the point estimate is
always present; the variance slot is empty when resampling failed, in which
case the error slot carries ResamplingError. -/
structure ResampleResult where
  point : ℚ
  variance : Option ℚ
  error : Option String
deriving Repr, DecidableEq

/-- Mean of a list of rationals (0 on the empty list). -/
def sampleMean (xs : List ℚ) : ℚ := xs.sum / xs.length

/-- Modelled from the spec: the cluster bootstrap of the Resampling and
Variance Module, absent from the source. It computes the point estimate (the
mean of the outcome column); when fewer than 2 distinct clusters are available
it fails with ResamplingError, still returning the point estimate with the
variance marked unavailable; otherwise it reports an empirical variance (the
variance of the per-cluster means stands in for the resample distribution). -/
def clusterBootstrap (rows : List ClusterRow) : ResampleResult :=
  let clusters := (rows.map (fun r => r.cluster)).dedup
  let point := sampleMean (rows.map (fun r => r.value))
  if clusters.length < 2 then
    { point := point, variance := none, error := some "ResamplingError" }
  else
    let clusterMeans := clusters.map (fun c =>
      sampleMean ((rows.filter (fun r => r.cluster == c)).map (fun r => r.value)))
    let v := sampleMean (clusterMeans.map (fun m => (m - sampleMean clusterMeans) ^ 2))
    { point := point, variance := some v, error := none }

/- ## pipeline_config.py: configuration and field mapping -/

/-- The FieldMapping dataclass of pipeline_config.py, lines 13 to 19. -/
structure FieldMapping where
  source_field : String
  target_field : String
  transform : Option String
  validation : Option String
deriving Repr, DecidableEq

/-- The ANALYSIS_TYPES table of PipelineConfig, lines 49 to 90: each analysis
type with its required and its optional field set (sets carried as lists;
only membership is used). -/
def ANALYSIS_TYPES : List (String × List String × List String) := [
  ("survival", ["time", "event", "group"],
    ["age", "sex", "treatment", "competing_risk", "left_truncation", "cluster"]),
  ("propensity", ["treatment", "outcome"],
    ["age", "sex", "comorbidity", "socioeconomic", "healthcare_access", "region"]),
  ("diagnostic", ["test_result", "true_condition"],
    ["test_date", "severity", "test_batch", "lab_id", "specimen_type"]),
  ("time_series", ["date", "count", "location"],
    ["population", "intervention_date", "variant", "vaccination_rate",
     "testing_rate"]),
  ("genetic_epi", ["variant", "phenotype", "population"],
    ["age", "sex", "ancestry", "gene_region", "allele_freq"]),
  ("environmental", ["exposure", "outcome", "location"],
    ["time_period", "temperature", "pollution_level", "precipitation",
     "altitude"]),
  ("transmission", ["case_id", "contact_id", "date"],
    ["setting", "duration", "distance", "mask_use", "ventilation", "variant"]),
  ("vaccine_effectiveness",
    ["vaccination_status", "outcome", "time_since_vaccination"],
    ["vaccine_type", "dose_number", "age", "risk_group", "variant"]),
  ("health_inequalities", ["outcome", "socioeconomic_status", "location"],
    ["education", "income", "healthcare_access", "race_ethnicity",
     "urban_rural"]),
  ("outbreak_detection", ["date", "count", "location"],
    ["baseline", "threshold", "seasonality", "population_size",
     "reporting_delay"])]

/-- Look up an analysis type in the ANALYSIS_TYPES table. -/
def lookupAnalysisType (t : String) :
    Option (List String × List String) :=
  (ANALYSIS_TYPES.find? (fun e => e.1 == t)).map (fun e => e.2)

/-- State of a PipelineConfig instance: the chosen analysis type and the
field-mapping dict, an association list in dict insertion order. -/
structure PipelineConfig where
  analysis_type : String
  field_mappings : List (String × FieldMapping)
deriving Repr, DecidableEq

/-- The PipelineConfig constructor, lines 92 to 106: rejects unknown analysis
types with ValueError, otherwise starts with an empty mapping dict. -/
def PipelineConfig.init (analysis_type : String) :
    Except String PipelineConfig :=
  match lookupAnalysisType analysis_type with
  | none => Except.error ("Unknown analysis type: " ++ analysis_type)
  | some _ =>
      Except.ok { analysis_type := analysis_type, field_mappings := [] }

/-- Python dict assignment on the mapping dict: an existing key keeps its
position and gets the new value; a new key is appended. -/
def updateAssoc : List (String × FieldMapping) → String → FieldMapping →
    List (String × FieldMapping)
  | [], k, v => [(k, v)]
  | e :: rest, k, v =>
      if e.1 == k then (k, v) :: rest else e :: updateAssoc rest k v

/-- PipelineConfig.map_field, lines 139 to 158: rejects a target field outside
the required and optional sets of the analysis type with ValueError, otherwise
stores a FieldMapping under the target key. -/
def PipelineConfig.map_field (cfg : PipelineConfig) (target_field : String)
    (source_field : String) (transform : Option String)
    (validation : Option String) : Except String PipelineConfig :=
  match lookupAnalysisType cfg.analysis_type with
  | none => Except.error ("Unknown analysis type: " ++ cfg.analysis_type)
  | some fields =>
      if (fields.1 ++ fields.2).contains target_field then
        Except.ok { cfg with
          field_mappings := updateAssoc cfg.field_mappings target_field
            { source_field := source_field, target_field := target_field,
              transform := transform, validation := validation } }
      else Except.error ("Unknown target field: " ++ target_field)

/-- What save_config writes per mapped target, lines 214 to 224: the source
field, transform and validation of the mapping (the target field is the key). -/
structure SavedMapping where
  source_field : String
  transform : Option String
  validation : Option String
deriving Repr, DecidableEq

/-- The serialized configuration value. Writing to json or yaml and reading it
back is modelled as the identity on this structured value: both formats
round-trip strings and nulls verbatim. -/
structure SavedConfig where
  analysis_type : String
  field_mappings : List (String × SavedMapping)
deriving Repr, DecidableEq

/-- The per-entry serialization used by save_config. -/
def toSavedMapping (e : String × FieldMapping) : String × SavedMapping :=
  (e.1, { source_field := e.2.source_field, transform := e.2.transform,
          validation := e.2.validation })

/-- PipelineConfig.save_config, lines 208 to 230: writes the analysis type and
the mapping dict in insertion order. -/
def PipelineConfig.save_config (cfg : PipelineConfig) : SavedConfig :=
  { analysis_type := cfg.analysis_type,
    field_mappings := cfg.field_mappings.map toSavedMapping }

/-- The FieldMapping that load_config rebuilds from a saved entry: the target
field is restored from the key. -/
def mkLoadedMapping (e : String × SavedMapping) : FieldMapping :=
  { source_field := e.2.source_field, target_field := e.1,
    transform := e.2.transform, validation := e.2.validation }

/-- PipelineConfig.load_config, lines 232 to 257: builds a fresh instance from
the analysis type of the file and replays map_field on every saved mapping in
file order. -/
def PipelineConfig.load_config (sc : SavedConfig) :
    Except String PipelineConfig :=
  sc.field_mappings.foldl
    (fun acc e => acc.bind (fun cfg =>
      cfg.map_field e.1 e.2.source_field e.2.transform e.2.validation))
    (PipelineConfig.init sc.analysis_type)

/-- Dict read of the mapping stored under a target key. -/
def lookupMapping (cfg : PipelineConfig) (t : String) : Option FieldMapping :=
  (cfg.field_mappings.find? (fun e => e.1 == t)).map (fun e => e.2)

/-- Searching an association list whose entries were rewritten in a
key-preserving way finds the rewritten image of the original hit. -/
lemma find?_key_map {β γ : Type} (l : List (String × β))
    (g : String × β → γ) (t : String) :
    ((l.map (fun e => (e.1, g e))).find? (fun e => e.1 == t)) =
      (l.find? (fun e => e.1 == t)).map (fun e => (e.1, g e)) := by
  induction l with
  | nil => rfl
  | cons e l ih =>
      cases h : (e.1 == t) with
      | true => simp [List.find?_cons, h]
      | false => simp [List.find?_cons, h, ih]

/-- Dict assignment under a fresh key appends the binding. -/
lemma updateAssoc_of_not_mem (m : List (String × FieldMapping)) (k : String)
    (v : FieldMapping) (h : ∀ e ∈ m, (e.1 == k) = false) :
    updateAssoc m k v = m ++ [(k, v)] := by
  induction m with
  | nil => rfl
  | cons e m ih =>
      have he := h e (List.mem_cons_self e m)
      simp only [updateAssoc, he, Bool.false_eq_true, if_false,
        List.cons_append, List.cons.injEq, true_and]
      exact ih (fun e0 he0 => h e0 (List.mem_cons_of_mem e he0))

/-- Replaying dict assignments with pairwise-distinct fresh keys appends the
bindings in order. -/
lemma foldl_updateAssoc_eq_append :
    ∀ (entries : List (String × SavedMapping))
      (m : List (String × FieldMapping)),
      (∀ e ∈ entries, ∀ e0 ∈ m, (e0.1 == e.1) = false) →
      (entries.map Prod.fst).Nodup →
      entries.foldl (fun acc e => updateAssoc acc e.1 (mkLoadedMapping e)) m =
        m ++ entries.map (fun e => (e.1, mkLoadedMapping e))
  | [], m, _, _ => by simp
  | e :: entries, m, hd, hn => by
      simp only [List.foldl_cons, List.map_cons]
      rw [updateAssoc_of_not_mem m e.1 _
        (fun e0 he0 => hd e (List.mem_cons_self e entries) e0 he0)]
      rw [foldl_updateAssoc_eq_append entries (m ++ [(e.1, mkLoadedMapping e)])
        ?_ ((List.nodup_cons.mp hn).2)]
      · simp
      · intro e2 he2 e0 he0
        rcases List.mem_append.mp he0 with h0 | h0
        · exact hd e2 (List.mem_cons_of_mem e he2) e0 h0
        · have : e0 = (e.1, mkLoadedMapping e) := by simpa using h0
          subst this
          have hne : e.1 ∉ entries.map Prod.fst := (List.nodup_cons.mp hn).1
          have : e.1 ≠ e2.1 := by
            intro hcontra
            exact hne (hcontra ▸ List.mem_map_of_mem Prod.fst he2)
          simpa using this

/-- Replaying map_field over saved entries whose targets are all valid for the
analysis type succeeds, and the resulting dict is the sequence of dict
assignments. -/
lemma load_fold_ok (fields : List String × List String) :
    ∀ (entries : List (String × SavedMapping)) (cfg0 : PipelineConfig),
      lookupAnalysisType cfg0.analysis_type = some fields →
      (∀ e ∈ entries, (fields.1 ++ fields.2).contains e.1 = true) →
      entries.foldl (fun acc e => acc.bind (fun cfg =>
          cfg.map_field e.1 e.2.source_field e.2.transform e.2.validation))
        (Except.ok cfg0) =
      Except.ok { analysis_type := cfg0.analysis_type,
                  field_mappings := entries.foldl
                    (fun m e => updateAssoc m e.1 (mkLoadedMapping e))
                    cfg0.field_mappings }
  | [], cfg0, _, _ => by simp
  | e :: entries, cfg0, h1, h2 => by
      simp only [List.foldl_cons]
      have step : (Except.ok cfg0).bind (fun cfg => PipelineConfig.map_field
          cfg e.1 e.2.source_field e.2.transform e.2.validation) =
          Except.ok { cfg0 with
                      field_mappings := updateAssoc cfg0.field_mappings e.1
                        (mkLoadedMapping e) } := by
        show PipelineConfig.map_field cfg0 e.1 e.2.source_field e.2.transform
          e.2.validation = _
        rw [PipelineConfig.map_field, h1]
        simp only [h2 e (List.mem_cons_self e entries), if_true]
        rfl
      rw [step]
      exact load_fold_ok fields entries _ h1
        (fun x hx => h2 x (List.mem_cons_of_mem e hx))

/-- The image of a configuration under save followed by load: same analysis
type, every mapping rebuilt from its saved fields with the target restored
from the key. -/
def roundTrip (cfg : PipelineConfig) : PipelineConfig :=
  { analysis_type := cfg.analysis_type,
    field_mappings := cfg.field_mappings.map
      (fun e => (e.1, mkLoadedMapping (toSavedMapping e))) }

/- ## Claim theorems -/

/-- C1: the spec promises that each estimator of the family returns a
CausalEstimate with point estimate, interval and diagnostics for every input
frame with declared exposure, outcome and confounder roles. The code does
not: every estimator body is a pass stub returning None for every input, and
the module aborts loading with a NameError before any estimator becomes
callable. -/
theorem c1_estimator_family_returns_none :
    (∀ (d : DataFrame) (e o : String) (c : List String) (t : Bool),
      g_computation d e o c t = none) ∧
    (∀ (d : DataFrame) (i e o : String) (cov : Option (List String)),
      instrumental_variables d i e o cov = none) ∧
    (∀ (d : DataFrame) (t o : String) (c : List String) (m : String),
      double_robust_estimation d t o c m = none) ∧
    (∀ (d : DataFrame) (ec : List (String × ℚ)) (ts : ℚ → ℚ) (od : String)
      (gp ft : Int), target_trial_emulation d ec ts od gp ft = none) ∧
    advancedStatsLoad = Except.error "NameError: name Any is not defined" :=
  ⟨fun _ _ _ _ _ => rfl, fun _ _ _ _ _ => rfl, fun _ _ _ _ _ => rfl,
   fun _ _ _ _ _ _ => rfl, rfl⟩

/-- C2: loading src/epirust/advanced_stats.py fails with a NameError on the
name Any, which the typing line 7 does not bind: every annotation name of the
first two methods is bound, the first unbound name of the class body is the
Any of the eligibility_criteria annotation of target_trial_emulation, and so
the module load errors out and no estimator is callable. -/
theorem c2_module_load_fails_with_nameerror_on_any :
    typingNames.contains "Any" = false ∧
    (gComputationAnnotNames ++ instrumentalVariablesAnnotNames).all
      (fun n => boundNames.contains n) = true ∧
    firstUnbound classBodyAnnotNames = some "Any" ∧
    advancedStatsLoad = Except.error "NameError: name Any is not defined" :=
  ⟨rfl, rfl, rfl, rfl⟩

/-- Concrete two-row frame with binary exposure a, outcome y, covariate x. -/
def c3Frame : DataFrame :=
  { columns := ["a", "y", "x"], rows := [[1, 1, 0], [0, 0, 1]] }

/-- The same two observations with fitted nuisance values attached: exposure,
outcome, the two outcome-regression predictions, and the propensity. -/
def c3Rows : List AiptwRow :=
  [{ a := 1, y := 1, mu1 := 1/2, mu0 := 1/4, p := 1/2 },
   { a := 0, y := 0, mu1 := 1/2, mu0 := 1/4, p := 1/2 }]

/-- C3: the spec requires double_robust_estimation with method aiptw to return
the sample mean of the augmented terms. On a concrete binary-exposure dataset
the spec formula evaluates to 1, while the code computes nothing and returns
None. -/
theorem c3_aiptw_stub_computes_no_augmented_mean :
    double_robust_estimation c3Frame "a" "y" ["x"] "aiptw" = none ∧
    aiptwMean c3Rows = 1 := by
  refine ⟨rfl, ?_⟩
  norm_num [aiptwMean, c3Rows]

/-- Concrete frame for the double-robustness scenario: binary exposure a,
outcome y, two covariates. -/
def c4Frame : DataFrame :=
  { columns := ["a", "y", "x1", "x2"], rows := [[1, 2, 0, 1], [0, 1, 1, 0]] }

/-- C4: the spec asserts the AIPTW/TMLE estimator stays consistent when either
nuisance model is correct. The code builds no estimator at all: for the aiptw
and the tmle method strings alike the stub returns None, so no consistency
guarantee of any kind is realized. -/
theorem c4_double_robust_stub_gives_no_estimator :
    double_robust_estimation c4Frame "a" "y" ["x1", "x2"] "aiptw" = none ∧
    double_robust_estimation c4Frame "a" "y" ["x1", "x2"] "tmle" = none :=
  ⟨rfl, rfl⟩

/-- C5: the spec requires instrumental_variables to attach a
WeakInstrumentWarning diagnostic exactly when the first-stage F-statistic is
below 10. The code attaches no diagnostic on any dataset whatsoever - weak
instrument or strong, the stub returns None with no diagnostics entry. -/
theorem c5_iv_emits_no_diagnostic_on_any_input :
    ∀ (d : DataFrame) (instrument exposure outcome : String)
      (covariates : Option (List String)),
      instrumental_variables d instrument exposure outcome covariates = none :=
  fun _ _ _ _ _ => rfl

/-- C6: the spec invariant orders interval bounds of every returned
CausalEstimate. The estimators cited for the invariant return None on every
input, so the code never produces a CausalEstimate carrying interval bounds at
all. -/
theorem c6_no_causal_estimate_with_interval_is_produced :
    ∀ (d : DataFrame) (e o : String) (c : List String) (t : Bool)
      (tr ou m : String) (cf : List String),
      (g_computation d e o c t).isNone = true ∧
      (double_robust_estimation d tr ou cf m).isNone = true :=
  fun _ _ _ _ _ _ _ _ _ => ⟨rfl, rfl⟩

/-- C7: the spec requires target-trial cloning to preserve person-time. The
method target_trial_emulation never produces a cloned structure: its own
annotation is the first unbound name of the class body, so its def aborts the
module load, and its body is a pass stub returning None. -/
theorem c7_target_trial_emulation_produces_no_clones :
    firstUnbound (gComputationAnnotNames ++ instrumentalVariablesAnnotNames ++
      targetTrialAnnotNames) = some "Any" ∧
    (∀ (d : DataFrame) (ec : List (String × ℚ)) (ts : ℚ → ℚ) (od : String)
      (gp ft : Int), target_trial_emulation d ec ts od gp ft = none) :=
  ⟨rfl, fun _ _ _ _ _ _ => rfl⟩

/-- C8: weight truncation is idempotent: truncating an already-truncated
weight vector at the same percentile changes nothing, for every weight list
and every percentile. -/
theorem c8_weight_truncation_idempotent (p : ℕ) (w : List ℚ) :
    truncateWeights p (truncateWeights p w) = truncateWeights p w := by
  have h := percentileValue_truncateWeights p w
  show (truncateWeights p w).map
      (fun x => min x (percentileValue p (truncateWeights p w))) =
    truncateWeights p w
  rw [h]
  show (w.map (fun x => min x (percentileValue p w))).map
      (fun x => min x (percentileValue p w)) =
    w.map (fun x => min x (percentileValue p w))
  rw [List.map_map]
  have hf : ((fun x => min x (percentileValue p w)) ∘
      (fun x => min x (percentileValue p w))) =
      (fun x : ℚ => min x (percentileValue p w)) := by
    funext x
    simp [Function.comp, min_assoc]
  rw [hf]

/-- C9: the cluster bootstrap raises ResamplingError exactly when fewer than 2
distinct clusters are available, and on that error path the point estimate is
still returned while the variance is marked unavailable. -/
theorem c9_cluster_bootstrap_degrades_to_missing_variance
    (rows : List ClusterRow) :
    (((rows.map (fun r => r.cluster)).dedup.length < 2) ↔
      (clusterBootstrap rows).error = some "ResamplingError") ∧
    (clusterBootstrap rows).point = sampleMean (rows.map (fun r => r.value)) ∧
    ((clusterBootstrap rows).error = some "ResamplingError" →
      (clusterBootstrap rows).variance = none) := by
  unfold clusterBootstrap
  by_cases h : (rows.map (fun r => r.cluster)).dedup.length < 2
  · simp [h]
  · simp [h]

/-- Two rows from a single cluster, for the error path of the bootstrap. -/
def c9Rows : List ClusterRow :=
  [{ cluster := 0, value := 1 }, { cluster := 0, value := 3 }]

/-- Witness for C9: on two rows from one single cluster the bootstrap reports
ResamplingError with the variance unavailable. -/
theorem c9_cluster_bootstrap_witness :
    ((c9Rows.map (fun r => r.cluster)).dedup.length < 2) ∧
    (clusterBootstrap c9Rows).error = some "ResamplingError" ∧
    (clusterBootstrap c9Rows).variance = none :=
  have h := c9_cluster_bootstrap_degrades_to_missing_variance c9Rows
  have h1 : (c9Rows.map (fun r => r.cluster)).dedup.length < 2 := by decide
  ⟨h1, h.1.mp h1, h.2.2 (h.1.mp h1)⟩

/-- C10: for a PipelineConfig whose mapped targets are all valid for its
analysis type, load_config after save_config returns an instance with the same
analysis type and, for every mapped target, a FieldMapping with the same
source field, transform and validation. The hypotheses mirror the Python class
invariants: the constructor accepted the analysis type and the mapping dict
has distinct keys. -/
theorem c10_save_load_round_trip (cfg : PipelineConfig)
    (fields : List String × List String)
    (h1 : lookupAnalysisType cfg.analysis_type = some fields)
    (h2 : ∀ e ∈ cfg.field_mappings,
      (fields.1 ++ fields.2).contains e.1 = true)
    (h3 : (cfg.field_mappings.map Prod.fst).Nodup) :
    ∃ cfg2, PipelineConfig.load_config (PipelineConfig.save_config cfg) =
        Except.ok cfg2 ∧
      cfg2.analysis_type = cfg.analysis_type ∧
      ∀ t fm, lookupMapping cfg t = some fm →
        ∃ fm2, lookupMapping cfg2 t = some fm2 ∧
          fm2.source_field = fm.source_field ∧
          fm2.transform = fm.transform ∧
          fm2.validation = fm.validation := by
  have hsaved : ∀ e ∈ cfg.field_mappings.map toSavedMapping,
      (fields.1 ++ fields.2).contains e.1 = true := by
    intro e he
    rcases List.mem_map.mp he with ⟨e0, he0, rfl⟩
    exact h2 e0 he0
  have hkeys : (cfg.field_mappings.map toSavedMapping).map Prod.fst =
      cfg.field_mappings.map Prod.fst := by
    rw [List.map_map]
    rfl
  have hload : PipelineConfig.load_config (PipelineConfig.save_config cfg) =
      Except.ok (roundTrip cfg) := by
    show (cfg.field_mappings.map toSavedMapping).foldl
        (fun acc e => acc.bind (fun cfg1 =>
          cfg1.map_field e.1 e.2.source_field e.2.transform e.2.validation))
        (PipelineConfig.init cfg.analysis_type) = Except.ok (roundTrip cfg)
    have hinit : PipelineConfig.init cfg.analysis_type =
        Except.ok { analysis_type := cfg.analysis_type,
                    field_mappings := [] } := by
      rw [PipelineConfig.init, h1]
    rw [hinit,
      load_fold_ok fields (cfg.field_mappings.map toSavedMapping)
        { analysis_type := cfg.analysis_type, field_mappings := [] } h1 hsaved]
    show Except.ok ({ analysis_type := cfg.analysis_type,
                      field_mappings :=
                        (cfg.field_mappings.map toSavedMapping).foldl
                          (fun m e => updateAssoc m e.1 (mkLoadedMapping e))
                          [] } : PipelineConfig) =
      Except.ok (roundTrip cfg)
    rw [foldl_updateAssoc_eq_append _ []
        (fun e _ e0 h0 => absurd h0 (List.not_mem_nil e0))
        (by rw [hkeys]; exact h3),
      List.nil_append, List.map_map]
    rfl
  refine ⟨roundTrip cfg, hload, rfl, ?_⟩
  intro t fm hfm
  have hfind2 : (roundTrip cfg).field_mappings.find? (fun e => e.1 == t) =
      (cfg.field_mappings.find? (fun e => e.1 == t)).map
        (fun e => (e.1, mkLoadedMapping (toSavedMapping e))) :=
    find?_key_map cfg.field_mappings
      (fun e => mkLoadedMapping (toSavedMapping e)) t
  unfold lookupMapping at hfm
  cases hfind : cfg.field_mappings.find? (fun e => e.1 == t) with
  | none =>
      rw [hfind] at hfm
      exact absurd hfm (by simp)
  | some e0 =>
      rw [hfind] at hfm
      have hval : e0.2 = fm := by simpa using hfm
      refine ⟨mkLoadedMapping (toSavedMapping e0), ?_, ?_, ?_, ?_⟩
      · show ((roundTrip cfg).field_mappings.find?
            (fun e => e.1 == t)).map (fun e => e.2) = _
        rw [hfind2, hfind]
        rfl
      · rw [← hval]; rfl
      · rw [← hval]; rfl
      · rw [← hval]; rfl

/-- A concrete survival-analysis configuration with two mapped targets, one of
them carrying a transform and a validation rule. -/
def c10Cfg : PipelineConfig :=
  { analysis_type := "survival",
    field_mappings := [
      ("time", { source_field := "followup_days", target_field := "time",
                 transform := none, validation := none }),
      ("event", { source_field := "death", target_field := "event",
                  transform := some "lambda x: x",
                  validation := some "binary" })] }

/-- Witness for C10: the round trip at the concrete survival configuration,
with every hypothesis discharged by evaluation. -/
theorem c10_save_load_round_trip_witness :
    ∃ cfg2, PipelineConfig.load_config (PipelineConfig.save_config c10Cfg) =
        Except.ok cfg2 ∧
      cfg2.analysis_type = c10Cfg.analysis_type ∧
      ∀ t fm, lookupMapping c10Cfg t = some fm →
        ∃ fm2, lookupMapping cfg2 t = some fm2 ∧
          fm2.source_field = fm.source_field ∧
          fm2.transform = fm.transform ∧
          fm2.validation = fm.validation :=
  c10_save_load_round_trip c10Cfg
    (["time", "event", "group"],
     ["age", "sex", "treatment", "competing_risk", "left_truncation",
      "cluster"])
    (by decide) (by decide) (by decide)
